import Mathlib

/-!
Verification development for the `replay-rs` binary replay decoder
(`src/lib.rs`).  The decoder is shallowly embedded over `List Nat` byte
buffers: every Rust `Cursor` read becomes an explicit-position function, a
read failure (which the Rust code turns into a panic through `.unwrap()`)
becomes `Option.none`, machine-integer wraparound is written out as
`% 2^w` (release-mode wrapping semantics), and Rust `String`s are modelled
as their byte lists.  `f32` values are kept as their little-endian 32-bit
bit patterns, since no decoded field is ever computed from the float value.
The external `flate2` inflater is a parameter
`inflate : List Nat → Nat → Option (List Nat)` (compressed bytes and the
expected-size hint), mirroring the collaborator contract.
-/

set_option maxRecDepth 200000

namespace ReplayRs

/-- `parse_dword` of `src/lib.rs`: little-endian 32-bit sum
`Σ 256^j * bytes[j]`, `j < 4` (missing bytes read as 0; every caller passes
an exact 4-byte slice). -/
def parse_dword (bytes : List Nat) : Nat :=
  bytes.getD 0 0 + 256 * bytes.getD 1 0 + 65536 * bytes.getD 2 0 +
    16777216 * bytes.getD 3 0

/-- `parse_word` of `src/lib.rs`: little-endian 16-bit sum. -/
def parse_word (bytes : List Nat) : Nat :=
  bytes.getD 0 0 + 256 * bytes.getD 1 0

/-- `Cursor::read_exact` into a buffer of `n` bytes at position `pos`:
fails (Rust: `Err`, which most call sites `.unwrap()` into a panic) when
fewer than `n` bytes remain. -/
def read_exact (data : List Nat) (pos n : Nat) : Option (List Nat) :=
  if pos + n ≤ data.length then some ((data.drop pos).take n) else none

/-- `cursor_read_byte` (`read_exact` of 1 byte, unwrapped). -/
def cursor_read_byte (data : List Nat) (pos : Nat) : Option Nat :=
  data.get? pos

/-- `cursor_read_word`: 2 bytes, little-endian. -/
def cursor_read_word (data : List Nat) (pos : Nat) : Option Nat :=
  (read_exact data pos 2).map parse_word

/-- `cursor_read_dword`: 4 bytes, little-endian. -/
def cursor_read_dword (data : List Nat) (pos : Nat) : Option Nat :=
  (read_exact data pos 4).map parse_dword

/-- `cursor_read_dword_float`: the source reads 4 bytes, reverses them and
applies `f32::from_be_bytes`, i.e. it interprets the little-endian dword as
an IEEE-754 bit pattern.  The bit pattern (= the little-endian dword value)
is what the model keeps. -/
def cursor_read_dword_float (data : List Nat) (pos : Nat) : Option Nat :=
  cursor_read_dword data pos

/-- `cursor_read_string`: fixed-length string, kept as its byte list
(`String::from_utf8_lossy` is identity on the byte level for the ASCII
payloads at issue). -/
def cursor_read_string (data : List Nat) (pos len : Nat) : Option (List Nat) :=
  read_exact data pos len

/-- `cursor_skip_bytes`: `Seek::seek(SeekFrom::Current n)`.  Seeking before
position 0 is an error (unwrapped into a panic → `none`); seeking past the
end is allowed (later reads then fail). -/
def cursor_skip_bytes (pos : Nat) (n : Int) : Option Nat :=
  if (pos : Int) + n < 0 then none else some ((pos : Int) + n).toNat

/-- `cursor_read_nullterminated_string`: `read_until 0x00` (the delimiter is
included in the buffer when found, otherwise the buffer runs to the end of
the stream), then the last byte of the buffer is dropped
(`&string_buf[..len-1]`).  On an empty buffer (cursor already at the end)
that index underflows and the Rust code panics → `none`. -/
def cursor_read_nullterminated_string (data : List Nat) (pos : Nat) :
    Option (List Nat × Nat) :=
  let s := (data.drop pos).takeWhile (fun b => b ≠ 0)
  if pos + s.length < data.length then some (s, pos + s.length + 1)
  else if pos < data.length then some (s.dropLast, data.length)
  else none

/-- The raw `read_until 0x00` used for the encoded game-settings blob: the
returned buffer includes the 0 delimiter when one is found.  `read_until`
itself never fails. -/
def read_until_zero (data : List Nat) (pos : Nat) : List Nat × Nat :=
  let s := (data.drop pos).takeWhile (fun b => b ≠ 0)
  if pos + s.length < data.length then (s ++ [0], pos + s.length + 1)
  else (s, data.length)

/-- `is_bit_set` of `src/lib.rs`. -/
def is_bit_set (byte i : Nat) : Bool :=
  byte &&& (1 <<< i) ≠ 0

/-- Helper for `get_bits_value`: running bit index. -/
def get_bits_value_go (byte : Nat) : List Nat → Nat → Nat
  | [], _ => 0
  | b :: rest, i =>
    (if is_bit_set byte b then 2 ^ i else 0) + get_bits_value_go byte rest (i + 1)

/-- `get_bits_value` of `src/lib.rs`: little-endian composition of the
requested source bits. -/
def get_bits_value (byte : Nat) (bits : List Nat) : Nat :=
  get_bits_value_go byte bits 0

/-- Wrapping 16-bit subtraction: `a - b` on Rust `u16` in release mode
(`a.wrapping_sub b` for `b ≤ 65536`), used by the time-slice remaining-length
bookkeeping (`len_following -= …`). -/
def u16_sub (a b : Nat) : Nat :=
  (a + 65536 - b) % 65536

/-- `(x : i32)` reinterpretation of a `u32` value. -/
def to_i32 (n : Nat) : Int :=
  if n < 2147483648 then (n : Int) else (n : Int) - 4294967296

/-- `as i8` truncation of an `i32` value. -/
def to_i8 (z : Int) : Int :=
  let m := z % 256
  if m < 128 then m else m - 256

/-- `cursor_read_ability_itemid` of `src/lib.rs`, lines 282–296: read a
16-bit word, seek 4 bytes **backwards** (2 bytes before the position the
function was entered at), then read either a 2-byte string followed by a 2
byte skip (when the word was `0x000D`) or a 4-byte string. -/
def cursor_read_ability_itemid (data : List Nat) (pos : Nat) :
    Option (List Nat × Nat) := do
  let item_id_end ← cursor_read_word data pos
  let p1 ← cursor_skip_bytes (pos + 2) (-4)
  if item_id_end = 0x000D then do
    let item_id ← cursor_read_string data p1 2
    let p2 ← cursor_skip_bytes (p1 + 2) 2
    pure (item_id, p2)
  else do
    let item_id ← cursor_read_string data p1 4
    pure (item_id, p1 + 4)

/-- Loop body of `decode_gamesettings` (`src/lib.rs` lines 298–315):
`i` is the absolute byte position, `mask` the current bitmask.  The Rust
loop indexes `enc[i]` unconditionally, so running past the end of the
input without meeting a zero byte panics → `none`. -/
def decode_gamesettings_go : List Nat → Nat → Nat → Option (List Nat)
  | [], _, _ => none
  | b :: rest, i, mask =>
    if b = 0 then some []
    else if i % 8 = 0 then decode_gamesettings_go rest (i + 1) b
    else
      (decode_gamesettings_go rest (i + 1) mask).map
        (fun dec => (if mask &&& (1 <<< (i % 8)) = 0 then b - 1 else b) :: dec)

/-- `decode_gamesettings` of `src/lib.rs`. -/
def decode_gamesettings (enc : List Nat) : Option (List Nat) :=
  decode_gamesettings_go enc 0 0

/-- The game-settings deobfuscation exactly as claim C5 words it: process
bytes by position, a byte at a position that is a multiple of 8 becomes the
current bitmask and is not emitted, any other byte at position `p` is
emitted as `byte - 1` when bit `p % 8` of the current mask is unset and
unchanged otherwise, and processing stops without emitting at the first
zero input byte. -/
def spec_decode_gamesettings_go : List Nat → Nat → Nat → List Nat
  | [], _, _ => []
  | b :: rest, p, mask =>
    if b = 0 then []
    else if p % 8 = 0 then spec_decode_gamesettings_go rest (p + 1) b
    else
      (if mask &&& (1 <<< (p % 8)) = 0 then b - 1 else b) ::
        spec_decode_gamesettings_go rest (p + 1) mask

/-- Entry point of the claim-worded deobfuscation. -/
def spec_decode_gamesettings (enc : List Nat) : List Nat :=
  spec_decode_gamesettings_go enc 0 0

/-- `SlotColor` (`src/lib.rs` lines 9–37), discriminants 1–25 and 127. -/
inductive SlotColor
  | RED | BLUE | TEAL | PURPLE | YELLOW | ORANGE | GREEN | PINK | GRAY
  | LIGHTBLUE | DARKGREEN | BROWN | MAROON | NAVY | TURQUOISE | VIOLET
  | WHEAT | PEACH | MINT | LAVENDER | COAL | SNOW | EMERALD | PEANUT
  | OBSERVER | UNKNOWN
  deriving DecidableEq

/-- Derived `SlotColor::from_u8` (`FromPrimitive`): recognizes exactly the
declared discriminants. -/
def SlotColor.from_u8 (n : Nat) : Option SlotColor :=
  if n = 1 then some .RED else if n = 2 then some .BLUE
  else if n = 3 then some .TEAL else if n = 4 then some .PURPLE
  else if n = 5 then some .YELLOW else if n = 6 then some .ORANGE
  else if n = 7 then some .GREEN else if n = 8 then some .PINK
  else if n = 9 then some .GRAY else if n = 10 then some .LIGHTBLUE
  else if n = 11 then some .DARKGREEN else if n = 12 then some .BROWN
  else if n = 13 then some .MAROON else if n = 14 then some .NAVY
  else if n = 15 then some .TURQUOISE else if n = 16 then some .VIOLET
  else if n = 17 then some .WHEAT else if n = 18 then some .PEACH
  else if n = 19 then some .MINT else if n = 20 then some .LAVENDER
  else if n = 21 then some .COAL else if n = 22 then some .SNOW
  else if n = 23 then some .EMERALD else if n = 24 then some .PEANUT
  else if n = 25 then some .OBSERVER else if n = 127 then some .UNKNOWN
  else none

/-- The slot-table color decoding (`src/lib.rs` lines 525–529): the 0-based
wire byte is incremented (u8 addition, wrapping in release mode, hence the
`% 256`) before the tag lookup, with `UNKNOWN` as the fallback. -/
def SlotColor.of_wire (b : Nat) : SlotColor :=
  (SlotColor.from_u8 ((b + 1) % 256)).getD .UNKNOWN

/-- `SlotRace` (`src/lib.rs` lines 39–48). -/
inductive SlotRace
  | HUMAN | ORC | NIGHTELF | UNDEAD | RANDOM | FIXED | UNKNOWN
  deriving DecidableEq

/-- Derived `SlotRace::from_u8` (discriminants 1, 2, 4, 8, 20, 40, 127). -/
def SlotRace.from_u8 (n : Nat) : Option SlotRace :=
  if n = 1 then some .HUMAN else if n = 2 then some .ORC
  else if n = 4 then some .NIGHTELF else if n = 8 then some .UNDEAD
  else if n = 20 then some .RANDOM else if n = 40 then some .FIXED
  else if n = 127 then some .UNKNOWN else none

/-- Race decoding with the `UNKNOWN` fallback (`src/lib.rs` lines 530–534). -/
def SlotRace.decode (b : Nat) : SlotRace :=
  (SlotRace.from_u8 b).getD .UNKNOWN

/-- `ComputerAIStrength` (`src/lib.rs` lines 50–56). -/
inductive ComputerAIStrength
  | EASY | NORMAL | INSANE | UNKNOWN
  deriving DecidableEq

/-- Derived `ComputerAIStrength::from_u8` (discriminants 0, 1, 2, 127). -/
def ComputerAIStrength.from_u8 (n : Nat) : Option ComputerAIStrength :=
  if n = 0 then some .EASY else if n = 1 then some .NORMAL
  else if n = 2 then some .INSANE else if n = 127 then some .UNKNOWN
  else none

/-- AI-strength decoding with the `UNKNOWN` fallback (lines 535–538). -/
def ComputerAIStrength.decode (b : Nat) : ComputerAIStrength :=
  (ComputerAIStrength.from_u8 b).getD .UNKNOWN

/-- `SlotStatus` (`src/lib.rs` lines 58–64). -/
inductive SlotStatus
  | EMPTY | CLOSED | OCCUPIED | UNKNOWN
  deriving DecidableEq

/-- Derived `SlotStatus::from_u8` (discriminants 0, 1, 2, 127). -/
def SlotStatus.from_u8 (n : Nat) : Option SlotStatus :=
  if n = 0 then some .EMPTY else if n = 1 then some .CLOSED
  else if n = 2 then some .OCCUPIED else if n = 127 then some .UNKNOWN
  else none

/-- Status decoding with the `UNKNOWN` fallback (lines 520–522). -/
def SlotStatus.decode (b : Nat) : SlotStatus :=
  (SlotStatus.from_u8 b).getD .UNKNOWN

/-- `LeaveReason` (`src/lib.rs` lines 66–71).  `UNKNOWN` carries the
implicit Rust discriminant `0x0C + 1 = 0x0D`. -/
inductive LeaveReason
  | CONNECTION_CLOSED_BY_REMOTE_GAME
  | CONNECTION_CLOSED_BY_LOCAL_GAME
  | UNKNOWN
  deriving DecidableEq

/-- Derived `LeaveReason::from_u32` (discriminants 0x01, 0x0C, 0x0D). -/
def LeaveReason.from_u32 (n : Nat) : Option LeaveReason :=
  if n = 0x01 then some .CONNECTION_CLOSED_BY_REMOTE_GAME
  else if n = 0x0C then some .CONNECTION_CLOSED_BY_LOCAL_GAME
  else if n = 0x0D then some .UNKNOWN
  else none

/-- Leave-reason decoding with the `UNKNOWN` fallback (line 583). -/
def LeaveReason.decode (n : Nat) : LeaveReason :=
  (LeaveReason.from_u32 n).getD .UNKNOWN

/-- `ActionType` (`src/lib.rs` lines 73–93).  `UNKNOWN` carries the
implicit Rust discriminant `0x68 + 1 = 0x69`. -/
inductive ActionType
  | PAUSE | RESUME | SAVE_GAME | SAVE_GAME_DONE
  | ABILITY_BASIC | ABILITY_WITH_TARGET_LOCATION
  | ABILITY_WITH_TARGET_LOCATION_AND_OBJECT | ITEM_TRANSFER
  | CHANGE_SELECTION | GROUP_ASSIGN | GROUP_SELECT | MINIMAP_SIGNAL
  | UNKNOWN
  deriving DecidableEq

/-- Derived `ActionType::from_u8`. -/
def ActionType.from_u8 (n : Nat) : Option ActionType :=
  if n = 0x01 then some .PAUSE else if n = 0x02 then some .RESUME
  else if n = 0x06 then some .SAVE_GAME
  else if n = 0x07 then some .SAVE_GAME_DONE
  else if n = 0x10 then some .ABILITY_BASIC
  else if n = 0x11 then some .ABILITY_WITH_TARGET_LOCATION
  else if n = 0x12 then some .ABILITY_WITH_TARGET_LOCATION_AND_OBJECT
  else if n = 0x13 then some .ITEM_TRANSFER
  else if n = 0x16 then some .CHANGE_SELECTION
  else if n = 0x17 then some .GROUP_ASSIGN
  else if n = 0x18 then some .GROUP_SELECT
  else if n = 0x68 then some .MINIMAP_SIGNAL
  else if n = 0x69 then some .UNKNOWN
  else none

/-- Action-type decoding with the `UNKNOWN` fallback (line 637). -/
def ActionType.decode (n : Nat) : ActionType :=
  (ActionType.from_u8 n).getD .UNKNOWN

/-- `SelectionMode` (`src/lib.rs` lines 162–166): only `ADD = 0x01` and
`REMOVE = 0x02`; the enumeration has no `UNKNOWN` variant. -/
inductive SelectionMode
  | ADD | REMOVE
  deriving DecidableEq

/-- Derived `SelectionMode::from_u8`: `none` for every other byte — the
`0x16` action stores this `Option` directly with no fallback (line 780). -/
def SelectionMode.from_u8 (n : Nat) : Option SelectionMode :=
  if n = 0x01 then some .ADD else if n = 0x02 then some .REMOVE else none

/-- `MapLocation` — the two `f32` coordinates kept as little-endian 32-bit
bit patterns. -/
structure MapLocation where
  x : Nat
  y : Nat
  deriving DecidableEq

/-- `ObjectIDs` (`src/lib.rs` lines 156–160). -/
structure ObjectIDs where
  id1 : Nat
  id2 : Nat
  deriving DecidableEq

/-- `ActionData` (`src/lib.rs` lines 168–199): sparse optional payload; a
field not set by the originating opcode stays `none`
(`..Default::default()`). -/
structure ActionData where
  location : Option MapLocation := none
  savegame_name : Option (List Nat) := none
  item_id : Option (List Nat) := none
  unknownA : Option Nat := none
  unknownB : Option Nat := none
  unknownC : Option Nat := none
  objects : Option (List ObjectIDs) := none
  ability_flags : Option Nat := none
  sel_mode : Option SelectionMode := none
  group_id : Option Nat := none
  target_obj_id_1 : Option Nat := none
  target_obj_id_2 : Option Nat := none
  item_obj_id_1 : Option Nat := none
  item_obj_id_2 : Option Nat := none
  deriving DecidableEq

/-- `Action` (`src/lib.rs` lines 201–208). -/
structure Action where
  player_id : Nat
  timestamp : Nat
  action_type : ActionType
  data : Option ActionData
  deriving DecidableEq

/-- `ReplayPlayer` (`src/lib.rs` lines 139–145), battle tag as bytes. -/
structure ReplayPlayer where
  battle_tag : List Nat
  leave_reason : LeaveReason
  result_byte : Nat
  left_at : Nat
  deriving DecidableEq

/-- `ChatMessage` (`src/lib.rs` lines 147–154), message as bytes, the
recipient slot as the signed value produced by `(code as i32 - 2) as i8`. -/
structure ChatMessage where
  sender_player_id : Nat
  recipient_slot_number : Option Int
  flag : Option Nat
  message : List Nat
  timestamp : Nat
  deriving DecidableEq

/-- `Slot` (`src/lib.rs` lines 126–137). -/
structure Slot where
  player_id : Nat
  map_download_percent : Nat
  status : SlotStatus
  is_computer : Bool
  team_index : Nat
  color : SlotColor
  race : SlotRace
  ai_strength : ComputerAIStrength
  handicap_percent : Nat
  deriving DecidableEq

/-- `GameSettings` (`src/lib.rs` lines 110–124). -/
structure GameSettings where
  game_speed : Nat
  vis_hide_terrain : Bool
  vis_map_explored : Bool
  vis_always_visible : Bool
  vis_default : Bool
  obs_mode : Nat
  teams_together : Bool
  fixed_teams : Nat
  shared_unit_control : Bool
  random_hero : Bool
  random_races : Bool
  obs_referees : Bool
  deriving DecidableEq

/-- `ReplayMeta` (`src/lib.rs` lines 101–108). -/
structure ReplayMeta where
  saving_player_id : Nat
  is_saving_player_host : Bool
  game_name : List Nat
  map_name : List Nat
  game_creator_battle_tag : List Nat
  deriving DecidableEq

/-- `Replay` (`src/lib.rs` lines 210–219).  The `HashMap<u8, ReplayPlayer>`
is modelled as an association list with unique keys (insertion order is the
stand-in for the map's unspecified iteration order; no decoded field
depends on that order). -/
structure Replay where
  version : Nat
  metadata : ReplayMeta
  game_settings : GameSettings
  slots : List Slot
  players : List (Nat × ReplayPlayer)
  chat : List ChatMessage
  actions : List Action
  deriving DecidableEq

/-- `HashMap::insert`: replace the entry when the key is present, add it
otherwise. -/
def insert_player (m : List (Nat × ReplayPlayer)) (k : Nat)
    (v : ReplayPlayer) : List (Nat × ReplayPlayer) :=
  if m.any (fun p => p.1 == k) then
    m.map (fun p => if p.1 = k then (k, v) else p)
  else m ++ [(k, v)]

/-- `HashMap::entry(k).and_modify(f)`: modify the entry when present, do
nothing otherwise. -/
def modify_player (m : List (Nat × ReplayPlayer)) (k : Nat)
    (f : ReplayPlayer → ReplayPlayer) : List (Nat × ReplayPlayer) :=
  m.map (fun p => if p.1 = k then (k, f p.2) else p)

/-- Outcome of the header/roster section of `Replay::from_bytes`
(`src/lib.rs` lines 406–564): everything read before the record stream. -/
structure HeaderInfo where
  player_is_host : Bool
  player_id : Nat
  player_name : List Nat
  game_name : List Nat
  game_settings : GameSettings
  map_name : List Nat
  game_creator_name : List Nat
  players : List (Nat × ReplayPlayer)
  slots : List Slot
  deriving DecidableEq

/-- `Option.bind`, kept out of the code generator's inliner (the chained
reads below otherwise trigger an exponential case-of-case blow-up when this
file is compiled); semantically it is exactly `Option.bind`. -/
@[noinline] def obind {α β : Type} (x : Option α) (f : α → Option β) :
    Option β :=
  x.bind f

/-- Roster loop (`src/lib.rs` lines 475–489): while the record tag is
`0x00` or `0x16`, read player id, nul-terminated name and a skipped
length-prefixed blob, inserting a fresh roster entry.  Takes the already
read tag and the position after it; returns the roster, the first
non-roster tag and the position after that tag. -/
def playerlist_loop (data : List Nat) :
    Nat → Nat → Nat → List (Nat × ReplayPlayer) →
    Option (List (Nat × ReplayPlayer) × Nat × Nat)
  | 0, _, _, _ => none
  | fuel + 1, tag, pos, players =>
    if tag = 0x00 ∨ tag = 0x16 then
      obind (cursor_read_byte data pos) fun pid =>
      obind (cursor_read_nullterminated_string data (pos + 1)) fun np =>
      obind (cursor_read_byte data np.2) fun sz =>
      obind (cursor_read_byte data (np.2 + 1 + sz)) fun tag2 =>
      playerlist_loop data fuel tag2 (np.2 + 1 + sz + 1)
        (insert_player players pid ⟨np.1, .UNKNOWN, 0, 0⟩)
    else some (players, tag, pos)

/-- Reforged-metadata loop (`src/lib.rs` lines 493–501): while the tag is
`0x39`, read a subtype byte and a 32-bit length and skip that many bytes. -/
def reforged_loop (data : List Nat) :
    Nat → Nat → Nat → Option (Nat × Nat)
  | 0, _, _ => none
  | fuel + 1, tag, pos =>
    if tag = 0x39 then
      obind (cursor_read_byte data pos) fun _subtype =>
      obind (cursor_read_dword data (pos + 1)) fun len =>
      obind (cursor_read_byte data (pos + 5 + len)) fun tag2 =>
      reforged_loop data fuel tag2 (pos + 5 + len + 1)
    else some (tag, pos)

/-- Slot-table loop (`src/lib.rs` lines 516–557): 9 sequential byte reads
per slot record, each mapped to the `Slot` entity. -/
def slots_loop (data : List Nat) :
    Nat → Nat → List Slot → Option (List Slot × Nat)
  | 0, pos, acc => some (acc, pos)
  | count + 1, pos, acc =>
    obind (cursor_read_byte data pos) fun pid =>
    obind (cursor_read_byte data (pos + 1)) fun dl =>
    obind (cursor_read_byte data (pos + 2)) fun status_byte =>
    obind (cursor_read_byte data (pos + 3)) fun comp =>
    obind (cursor_read_byte data (pos + 4)) fun team =>
    obind (cursor_read_byte data (pos + 5)) fun color_byte =>
    obind (cursor_read_byte data (pos + 6)) fun race_byte =>
    obind (cursor_read_byte data (pos + 7)) fun ai_byte =>
    obind (cursor_read_byte data (pos + 8)) fun handicap =>
    slots_loop data count (pos + 9)
      (acc ++ [{ player_id := pid, map_download_percent := dl,
                 status := SlotStatus.decode status_byte,
                 is_computer := comp = 1, team_index := team,
                 color := SlotColor.of_wire color_byte,
                 race := SlotRace.decode race_byte,
                 ai_strength := ComputerAIStrength.decode ai_byte,
                 handicap_percent := handicap }])

/-- Intermediate result of the fixed prefix of the header section
(`src/lib.rs` sections 4.1–4.5): everything up to and including the decoded
game settings and the embedded map/creator names. -/
structure HeaderPrefix where
  host_byte : Nat
  player_id : Nat
  player_name : List Nat
  game_name : List Nat
  settings : GameSettings
  map_name : List Nat
  creator_name : List Nat
  deriving DecidableEq

/-- The bit-unpacking of the decoded settings blob (`src/lib.rs` section
4.4, lines 434–447). -/
def unpack_gamesettings (gs0 gs1 gs2 gs3 : Nat) : GameSettings :=
  { game_speed := get_bits_value gs0 [0, 1],
    vis_hide_terrain := get_bits_value gs1 [0] = 1,
    vis_map_explored := get_bits_value gs1 [1] = 1,
    vis_always_visible := get_bits_value gs1 [2] = 1,
    vis_default := get_bits_value gs1 [3] = 1,
    obs_mode := get_bits_value gs1 [4, 5],
    teams_together := get_bits_value gs1 [6] = 1,
    fixed_teams := get_bits_value gs2 [1, 2],
    shared_unit_control := get_bits_value gs3 [0] = 1,
    random_hero := get_bits_value gs3 [1] = 1,
    random_races := get_bits_value gs3 [2] = 1,
    obs_referees := get_bits_value gs3 [6] = 1 }

/-- Sections 4.1–4.5 of `Replay::from_bytes` (`src/lib.rs` lines 406–452):
host flag, session player id, 4 skipped bytes, player name, skipped blob,
game name, one extra NUL, encoded settings blob (deobfuscated and
bit-unpacked, where indexing bytes 0–3 or slicing at 13 of a shorter
decoded blob panics → `none`) and the embedded map/creator names read from
a sub-cursor at offset 13 of the decoded blob. -/
def parse_header_front (data : List Nat) : Option (HeaderPrefix × Nat) :=
  obind (cursor_read_byte data 0) fun host_byte =>
  obind (cursor_read_byte data 1) fun player_id =>
  -- 4 skipped (undocumented) bytes: positions 2–5
  obind (cursor_read_nullterminated_string data 6) fun pn =>
  obind (cursor_read_byte data pn.2) fun adsz =>
  obind (cursor_read_nullterminated_string data (pn.2 + 1 + adsz)) fun gn =>
  -- one additional NUL byte is skipped, then `read_until 0x00`
  obind (decode_gamesettings (read_until_zero data (gn.2 + 1)).1) fun gsbuf =>
  obind (gsbuf.get? 0) fun gs0 =>
  obind (gsbuf.get? 1) fun gs1 =>
  obind (gsbuf.get? 2) fun gs2 =>
  obind (gsbuf.get? 3) fun gs3 =>
  if gsbuf.length < 13 then none else
  obind (cursor_read_nullterminated_string (gsbuf.drop 13) 0) fun mn =>
  obind (cursor_read_nullterminated_string (gsbuf.drop 13) mn.2) fun cn =>
  some ({ host_byte := host_byte, player_id := player_id,
          player_name := pn.1, game_name := gn.1,
          settings := unpack_gamesettings gs0 gs1 gs2 gs3,
          map_name := mn.1, creator_name := cn.1 },
        (read_until_zero data (gn.2 + 1)).2)

/-- The full header/roster section of `Replay::from_bytes` (`src/lib.rs`
lines 406–564): the prefix above, then player-slot count, game type, the
roster loop, the Reforged-metadata loop, the `0x19` start-record sentinel
(any other tag panics → `none`), the slot table, and the trailing seed /
selection-mode / start-spot bytes.  Returns the parsed `HeaderInfo` and the
cursor position at the start of the record stream. -/
def parse_header (data : List Nat) : Option (HeaderInfo × Nat) :=
  obind (parse_header_front data) fun hpp =>
  obind (cursor_read_dword data hpp.2) fun _num_players_slots =>
  obind (cursor_read_byte data (hpp.2 + 4)) fun _game_type =>
  obind (cursor_read_byte data (hpp.2 + 5)) fun _is_private =>
  -- 2 skipped bytes, then 4 skipped (language id?) bytes
  obind (cursor_read_byte data (hpp.2 + 12)) fun tag0 =>
  obind (playerlist_loop data (data.length + 1) tag0 (hpp.2 + 13)
    (insert_player [] hpp.1.player_id ⟨hpp.1.player_name, .UNKNOWN, 0, 0⟩))
    fun plr =>
  obind (reforged_loop data (data.length + 1) plr.2.1 plr.2.2) fun rr =>
  -- GameStartRecord sentinel: any other tag panics
  if rr.1 ≠ 0x19 then none else
  obind (cursor_read_word data rr.2) fun _data_length =>
  obind (cursor_read_byte data (rr.2 + 2)) fun count =>
  obind (slots_loop data count (rr.2 + 3) []) fun sl =>
  obind (cursor_read_dword data sl.2) fun _random_seed =>
  obind (cursor_read_byte data (sl.2 + 4)) fun _selection_mode =>
  obind (cursor_read_byte data (sl.2 + 5)) fun _start_spot_count =>
  some ({ player_is_host := hpp.1.host_byte = 0x00,
          player_id := hpp.1.player_id, player_name := hpp.1.player_name,
          game_name := hpp.1.game_name, game_settings := hpp.1.settings,
          map_name := hpp.1.map_name,
          game_creator_name := hpp.1.creator_name, players := plr.1,
          slots := sl.1 }, sl.2 + 6)

/-- State accumulated by the record/action stream parser that the nested
time-slice loops read and write: cumulative timestamp, chat log, action
log and the roster. -/
structure PSt where
  ts : Nat
  chat : List ChatMessage
  actions : List Action
  players : List (Nat × ReplayPlayer)
  deriving DecidableEq

/-- Full state of the outer record loop: `PSt` plus `last_leaver_index`
(`src/lib.rs` line 576, updated at line 594). -/
structure RecSt where
  pst : PSt
  lastLeaver : Nat
  deriving DecidableEq

/-- The `0x60` chat-command append (`src/lib.rs` lines 866–874): push a new
chat entry unless some existing entry has the same sender, identical text
and a timestamp within 500 units (`u64::abs_diff < 500`, i.e. `Nat.dist`)
of the current cumulative timestamp. -/
def chat_push (chat : List ChatMessage) (pid ts : Nat)
    (command : List Nat) : List ChatMessage :=
  if ∃ el ∈ chat, el.sender_player_id = pid ∧ el.message = command ∧
      Nat.dist el.timestamp ts < 500 then chat
  else chat ++ [⟨pid, none, none, command, ts⟩]

/-- `(id1, id2)` pair loop shared by the `0x16` and `0x17` actions
(`src/lib.rs` lines 770–778 and 789–797). -/
def read_pairs (data : List Nat) : Nat → Nat → Option (List ObjectIDs × Nat)
  | 0, pos => some ([], pos)
  | n + 1, pos =>
    obind (cursor_read_dword data pos) fun a =>
    obind (cursor_read_dword data (pos + 4)) fun b =>
    obind (read_pairs data n (pos + 8)) fun rest =>
    some (⟨a, b⟩ :: rest.1, rest.2)

/-- Payload prefix shared by the four ability opcodes `0x10`–`0x13`
(`src/lib.rs` lines 660–676 etc.): flag word, 2 skipped bytes, the
lookahead item id, and two unlabeled dwords.  `after` is the cursor
position after the two dwords. -/
structure AbilityPayload where
  flags : Nat
  item_id : List Nat
  unk_a : Nat
  unk_b : Nat
  after : Nat
  deriving DecidableEq

/-- Read the shared ability payload prefix starting right after the opcode
byte (`pos1`). -/
def read_ability_payload (data : List Nat) (pos1 : Nat) :
    Option AbilityPayload :=
  obind (cursor_read_word data pos1) fun flags =>
  -- cursor_skip_bytes 2 (a forward seek always succeeds)
  obind (cursor_read_ability_itemid data (pos1 + 2 + 2)) fun ii =>
  obind (cursor_read_dword data ii.2) fun unk_a =>
  obind (cursor_read_dword data (ii.2 + 4)) fun unk_b =>
  some ⟨flags, ii.1, unk_a, unk_b, ii.2 + 8⟩

/-- One step of the innermost action loop: either the action's payload was
consumed (`next`, with the possibly updated chat log and the new cursor
position) or an unknown opcode skipped the rest of the block and broke out
of the loop (`stop`). -/
inductive ActStep
  | next (d : Option ActionData) (chat : List ChatMessage) (pos : Nat)
  | stop (pos : Nat)
  deriving DecidableEq

/-- The listed arms of the opcode dispatch of the innermost action loop
(`src/lib.rs` lines 642–926), one test per source match arm, in source
order; `pos1` is the position after the opcode byte.  Only called for
opcodes in `known_opcodes` (every listed arm), so the trailing `none` is
unreachable. -/
def dispatch_known_action (data : List Nat) (pid ts : Nat)
    (chat : List ChatMessage) (op pos1 : Nat) : Option ActStep :=
  if op = 0x01 then some (.next none chat pos1)
  else if op = 0x02 then some (.next none chat pos1)
  else if op = 0x03 then
    obind (cursor_read_byte data pos1) fun _new_game_speed =>
    some (.next none chat (pos1 + 1))
  else if op = 0x04 then some (.next none chat pos1)
  else if op = 0x05 then some (.next none chat pos1)
  else if op = 0x06 then
    obind (cursor_read_nullterminated_string data pos1) fun sn =>
    some (.next (some { savegame_name := some sn.1 }) chat sn.2)
  else if op = 0x07 then some (.next none chat (pos1 + 4))
  else if op = 0x10 then
    obind (read_ability_payload data pos1) fun ap =>
    some (.next (some { item_id := some ap.item_id.reverse,
                        ability_flags := some ap.flags,
                        unknownA := some ap.unk_a,
                        unknownB := some ap.unk_b }) chat ap.after)
  else if op = 0x11 then
    obind (read_ability_payload data pos1) fun ap =>
    obind (cursor_read_dword_float data ap.after) fun lx =>
    obind (cursor_read_dword_float data (ap.after + 4)) fun ly =>
    some (.next (some { item_id := some ap.item_id.reverse,
                        ability_flags := some ap.flags,
                        location := some ⟨lx, ly⟩,
                        unknownA := some ap.unk_a,
                        unknownB := some ap.unk_b }) chat (ap.after + 8))
  else if op = 0x12 then
    obind (read_ability_payload data pos1) fun ap =>
    obind (cursor_read_dword_float data ap.after) fun lx =>
    obind (cursor_read_dword_float data (ap.after + 4)) fun ly =>
    obind (cursor_read_dword data (ap.after + 8)) fun obj_1 =>
    obind (cursor_read_dword data (ap.after + 12)) fun obj_2 =>
    some (.next (some { item_id := some ap.item_id.reverse,
                        ability_flags := some ap.flags,
                        location := some ⟨lx, ly⟩,
                        unknownA := some ap.unk_a,
                        unknownB := some ap.unk_b,
                        target_obj_id_1 := some obj_1,
                        target_obj_id_2 := some obj_2 }) chat (ap.after + 16))
  else if op = 0x13 then
    obind (read_ability_payload data pos1) fun ap =>
    obind (cursor_read_dword_float data ap.after) fun lx =>
    obind (cursor_read_dword_float data (ap.after + 4)) fun ly =>
    obind (cursor_read_dword data (ap.after + 8)) fun obj_1 =>
    obind (cursor_read_dword data (ap.after + 12)) fun obj_2 =>
    obind (cursor_read_dword data (ap.after + 16)) fun item_obj_1 =>
    obind (cursor_read_dword data (ap.after + 20)) fun item_obj_2 =>
    some (.next (some { item_id := some ap.item_id.reverse,
                        ability_flags := some ap.flags,
                        location := some ⟨lx, ly⟩,
                        unknownA := some ap.unk_a,
                        unknownB := some ap.unk_b,
                        target_obj_id_1 := some obj_1,
                        target_obj_id_2 := some obj_2,
                        item_obj_id_1 := some item_obj_1,
                        item_obj_id_2 := some item_obj_2 }) chat
          (ap.after + 24))
  else if op = 0x14 then some (.next none chat (pos1 + 43))
  else if op = 0x16 then
    obind (cursor_read_byte data pos1) fun select_mode_byte =>
    obind (cursor_read_word data (pos1 + 1)) fun num_units =>
    obind (read_pairs data num_units (pos1 + 3)) fun objs =>
    some (.next (some { sel_mode := SelectionMode.from_u8 select_mode_byte,
                        objects := some objs.1 }) chat objs.2)
  else if op = 0x17 then
    obind (cursor_read_byte data pos1) fun group_num =>
    obind (cursor_read_word data (pos1 + 1)) fun items_count =>
    obind (read_pairs data items_count (pos1 + 3)) fun objs =>
    some (.next (some { group_id := some group_num,
                        objects := some objs.1 }) chat objs.2)
  else if op = 0x18 then some (.next none chat (pos1 + 2))
  else if op = 0x19 then some (.next none chat (pos1 + 12))
  else if op = 0x1A then some (.next none chat pos1)
  else if op = 0x1B then some (.next none chat (pos1 + 9))
  else if op = 0x1C then some (.next none chat (pos1 + 9))
  else if op = 0x1D then some (.next none chat (pos1 + 8))
  else if op = 0x1E then some (.next none chat (pos1 + 5))
  else if op = 0x21 then some (.next none chat (pos1 + 8))
  else if op = 0x20 then some (.next none chat pos1)
  else if op = 0x22 then some (.next none chat pos1)
  else if op = 0x23 then some (.next none chat pos1)
  else if op = 0x24 then some (.next none chat pos1)
  else if op = 0x25 then some (.next none chat pos1)
  else if op = 0x26 then some (.next none chat pos1)
  else if op = 0x27 then some (.next none chat (pos1 + 5))
  else if op = 0x29 then some (.next none chat pos1)
  else if op = 0x2A then some (.next none chat pos1)
  else if op = 0x2B then some (.next none chat pos1)
  else if op = 0x2C then some (.next none chat pos1)
  else if op = 0x2D then some (.next none chat (pos1 + 5))
  else if op = 0x2E then some (.next none chat (pos1 + 4))
  else if op = 0x2F then some (.next none chat pos1)
  else if op = 0x30 then some (.next none chat pos1)
  else if op = 0x31 then some (.next none chat pos1)
  else if op = 0x32 then some (.next none chat pos1)
  else if op = 0x50 then some (.next none chat (pos1 + 5))
  else if op = 0x51 then some (.next none chat (pos1 + 9))
  else if op = 0x60 then
    obind (read_exact data pos1 8) fun _buf =>
    obind (cursor_read_nullterminated_string data (pos1 + 8)) fun cm =>
    some (.next none (chat_push chat pid ts cm.1) cm.2)
  else if op = 0x61 then some (.next none chat pos1)
  else if op = 0x62 then
    obind (cursor_read_dword data pos1) fun a =>
    obind (cursor_read_dword data (pos1 + 4)) fun b =>
    obind (cursor_read_dword data (pos1 + 8)) fun c =>
    some (.next (some { unknownA := some a, unknownB := some b,
                        unknownC := some c }) chat (pos1 + 12))
  else if op = 0x66 then some (.next none chat pos1)
  else if op = 0x67 then some (.next none chat pos1)
  else if op = 0x68 then
    obind (cursor_read_dword_float data pos1) fun x =>
    obind (cursor_read_dword_float data (pos1 + 4)) fun y =>
    some (.next (some { location := some ⟨x, y⟩ }) chat (pos1 + 8))
  else if op = 0x69 then some (.next none chat (pos1 + 16))
  else if op = 0x6A then some (.next none chat (pos1 + 16))
  else if op = 0x75 then some (.next none chat (pos1 + 1))
  else if op = 0x7A then some (.next none chat (pos1 + 20))
  else if op = 0x7B then some (.next none chat (pos1 + 16))
  else none

/-- The exact set of opcodes `dispatch_known_action` lists; every other
opcode falls through the source match to the unknown-opcode arm. -/
def known_opcodes : List Nat :=
  [0x01, 0x02, 0x03, 0x04, 0x05, 0x06, 0x07,
   0x10, 0x11, 0x12, 0x13, 0x14, 0x16, 0x17, 0x18, 0x19,
   0x1A, 0x1B, 0x1C, 0x1D, 0x1E,
   0x20, 0x21, 0x22, 0x23, 0x24, 0x25, 0x26, 0x27,
   0x29, 0x2A, 0x2B, 0x2C, 0x2D, 0x2E, 0x2F, 0x30, 0x31, 0x32,
   0x50, 0x51, 0x60, 0x61, 0x62, 0x66, 0x67, 0x68, 0x69, 0x6A,
   0x75, 0x7A, 0x7B]

/-- The full opcode dispatch (`src/lib.rs` lines 642–926): an opcode with
a listed arm runs that arm; any other opcode hits the source's `_` arm,
which computes the remaining bytes of the current block from the declared
block length (`block_start + block_len`) and the bytes already consumed
(`u64` arithmetic whose underflow, or a skip running past the end of the
buffer, makes the following `read_exact` panic → `none`), skips exactly
that many bytes and stops the block.  (The membership test is the same
case analysis the source's `match` performs: `dispatch_known_action`
lists exactly the arms of `known_opcodes`.) -/
def dispatch_action (data : List Nat) (pid ts : Nat)
    (chat : List ChatMessage) (op pos1 block_start block_len : Nat) :
    Option ActStep :=
  if op ∈ known_opcodes then dispatch_known_action data pid ts chat op pos1
  else
    if pos1 ≤ block_start + block_len ∧ block_start + block_len ≤ data.length
    then some (.stop (block_start + block_len))
    else none

/-- The innermost loop of the time-slice branch (`src/lib.rs` lines
624–934): decode actions one opcode at a time until the declared block
byte count (`cur_action_blocks_length`) is consumed by the `u16`
bookkeeping counter `cur_read_bytes`, appending only actions whose
resolved type is not `UNKNOWN`.  Returns the updated state and the cursor
position after the loop. -/
def process_actions (data : List Nat) :
    Nat → Nat → Nat → Nat → Nat → Nat → PSt → Option (PSt × Nat)
  | 0, _, _, _, _, _, _ => none
  | fuel + 1, pos, block_start, block_len, cur_read, pid, st =>
    if cur_read < block_len then
      obind (cursor_read_byte data pos) fun op =>
      obind (dispatch_action data pid st.ts st.chat op (pos + 1) block_start
        block_len) fun step =>
      match step with
      | .stop p => some (st, p)
      | .next d chat2 p =>
        let acts :=
          if ActionType.decode op ≠ ActionType.UNKNOWN then
            st.actions ++ [⟨pid, st.ts, ActionType.decode op, d⟩]
          else st.actions
        process_actions data fuel p block_start block_len
          ((cur_read + (p - pos) % 65536) % 65536) pid
          { st with chat := chat2, actions := acts }
    else some (st, pos)

/-- The per-player block loop of the time-slice branch (`src/lib.rs` lines
615–939): read player id and 16-bit block length, update the player's
`left_at`, run the inner action loop, and keep looping while the `u16`
remaining-length counter (`len_following`, decremented with wrapping
subtraction) has not reached 0. -/
def process_blocks (data : List Nat) :
    Nat → Nat → Nat → PSt → Option (PSt × Nat)
  | 0, _, _, _ => none
  | fuel + 1, pos, len_following, st =>
    obind (cursor_read_byte data pos) fun pid =>
    obind (cursor_read_word data (pos + 1)) fun block_len =>
    let st1 :=
      { st with players := modify_player st.players pid (fun r => { r with left_at := st.ts }) }
    obind (process_actions data (data.length + 1) (pos + 3) (pos + 3)
      block_len 0 pid st1) fun res =>
    if u16_sub (u16_sub len_following 3) ((res.2 - (pos + 3)) % 65536) < 1
    then some res
    else
      process_blocks data fuel res.2
        (u16_sub (u16_sub len_following 3) ((res.2 - (pos + 3)) % 65536))
        res.1

/-- The outer record loop of `Replay::from_bytes` (`src/lib.rs` lines
578–985): one-byte tag dispatch, looping until a `0x00` tag or an
unrecognized tag (both stop without error; running off the end of the
stream — the unconditional trailing `cursor_read_byte` — panics →
`none`).  The per-tag occurrence counters are pure diagnostics and are
not modelled; the post-time-slice byte-count consistency check only emits
a warning and is likewise dropped. -/
def process_records (data : List Nat) :
    Nat → Nat → RecSt → Option (RecSt × Nat)
  | 0, _, _ => none
  | fuel + 1, pos, st =>
    obind (cursor_read_byte data pos) fun tag =>
    if tag = 0x17 then
      obind (cursor_read_dword data (pos + 1)) fun lr =>
      obind (cursor_read_byte data (pos + 5)) fun pid =>
      obind (cursor_read_dword data (pos + 6)) fun res =>
      -- 4 reserved bytes are skipped
      let pl2 := modify_player st.pst.players pid
        (fun r => { r with leave_reason := LeaveReason.decode lr, result_byte := res % 256 })
      process_records data fuel (pos + 14)
        { pst := { st.pst with players := pl2 }, lastLeaver := pid }
    else if tag = 0x1A ∨ tag = 0x1B ∨ tag = 0x1C then
      process_records data fuel (pos + 5) st
    else if tag = 0x1E ∨ tag = 0x1F then
      obind (cursor_read_word data (pos + 1)) fun w =>
      obind (cursor_read_word data (pos + 3)) fun inc =>
      if 3 < u16_sub w 2 then
        obind (process_blocks data (data.length + 1) (pos + 5) (u16_sub w 2)
          { st.pst with ts := st.pst.ts + inc }) fun br =>
        process_records data fuel br.2
          { pst := br.1, lastLeaver := st.lastLeaver }
      else
        process_records data fuel (pos + 5)
          { pst := { st.pst with ts := st.pst.ts + inc },
            lastLeaver := st.lastLeaver }
    else if tag = 0x20 then
      obind (cursor_read_byte data (pos + 1)) fun pid =>
      -- 2 skipped bytes
      obind (cursor_read_byte data (pos + 4)) fun flag =>
      obind (cursor_read_dword data (pos + 5)) fun code =>
      obind (cursor_read_nullterminated_string data (pos + 9)) fun msg =>
      let entry : ChatMessage :=
        ⟨pid, some (to_i8 (to_i32 code - 2)), some flag, msg.1, st.pst.ts⟩
      process_records data fuel msg.2
        { st with pst := { st.pst with chat := st.pst.chat ++ [entry] } }
    else if tag = 0x22 then process_records data fuel (pos + 6) st
    else if tag = 0x23 then process_records data fuel (pos + 11) st
    else if tag = 0x2F then process_records data fuel (pos + 9) st
    else some (st, pos + 1)

/-- Projection of `process_records` that collects, in order, the player id
of every `0x17` leave-game record the loop processes.  It walks the stream
with exactly the reads and position updates of `process_records` (the
time-slice branch runs the same `process_blocks`); where `process_records`
would fail, the tail it returns is irrelevant (the characterization below
is conditional on success). -/
def collect_leaves (data : List Nat) : Nat → Nat → PSt → List Nat
  | 0, _, _ => []
  | fuel + 1, pos, pst =>
    match cursor_read_byte data pos with
    | none => []
    | some tag =>
      if tag = 0x17 then
        match cursor_read_dword data (pos + 1), cursor_read_byte data (pos + 5),
              cursor_read_dword data (pos + 6) with
        | some lr, some pid, some res =>
          let pl2 := modify_player pst.players pid
            (fun r => { r with leave_reason := LeaveReason.decode lr, result_byte := res % 256 })
          pid :: collect_leaves data fuel (pos + 14) { pst with players := pl2 }
        | _, _, _ => []
      else if tag = 0x1A ∨ tag = 0x1B ∨ tag = 0x1C then
        collect_leaves data fuel (pos + 5) pst
      else if tag = 0x1E ∨ tag = 0x1F then
        match cursor_read_word data (pos + 1), cursor_read_word data (pos + 3)
            with
        | some w, some inc =>
          if 3 < u16_sub w 2 then
            match process_blocks data (data.length + 1) (pos + 5) (u16_sub w 2)
                { pst with ts := pst.ts + inc } with
            | some br => collect_leaves data fuel br.2 br.1
            | none => []
          else collect_leaves data fuel (pos + 5) { pst with ts := pst.ts + inc }
        | _, _ => []
      else if tag = 0x20 then
        match cursor_read_byte data (pos + 1), cursor_read_byte data (pos + 4),
              cursor_read_dword data (pos + 5),
              cursor_read_nullterminated_string data (pos + 9) with
        | some pid, some flag, some code, some msg =>
          let entry : ChatMessage :=
            ⟨pid, some (to_i8 (to_i32 code - 2)), some flag, msg.1, pst.ts⟩
          collect_leaves data fuel msg.2 { pst with chat := pst.chat ++ [entry] }
        | _, _, _, _ => []
      else if tag = 0x22 then collect_leaves data fuel (pos + 6) pst
      else if tag = 0x23 then collect_leaves data fuel (pos + 11) pst
      else if tag = 0x2F then collect_leaves data fuel (pos + 9) pst
      else []

/-- The leave-reason based candidate search of `src/lib.rs` lines 990–997:
among the roster entries whose leave reason is
`CONNECTION_CLOSED_BY_LOCAL_GAME`, the single candidate when there is
exactly one, otherwise the first one whose battle tag is not `"FLO"`
(bytes `[70, 76, 79]`).  The source computes this value and then never
uses it — `ReplayMeta.saving_player_id` is populated from
`last_leaver_index` instead.  `HashMap` key order is unspecified; the
association list's insertion order stands in for it (the claims only use
this function where at most one candidate exists, where the order is
irrelevant). -/
def candidate_search (players : List (Nat × ReplayPlayer)) : Option Nat :=
  let cands := (players.filter (fun p =>
    match p.2.leave_reason with
    | LeaveReason.CONNECTION_CLOSED_BY_LOCAL_GAME => true
    | _ => false)).map (fun p => p.1)
  if cands.length = 1 then cands.head?
  else
    (cands.filter (fun k =>
      !(((players.find? (fun p => p.1 == k)).map
          (fun p => p.2.battle_tag)).getD [] == [70, 76, 79]))).head?

/-- The block-container loop of `Replay::from_bytes` (`src/lib.rs` lines
357–395): for each of the declared number of blocks, read the 12-byte
block header (compressed length, declared inflated length, two checksums
that are read but never verified), read exactly `compressed length`
payload bytes, inflate them (the `.unwrap()` on `decompress_vec` turns an
inflate failure into a panic → `none`) and append the result.  A failed
header read breaks the loop (`Err(_) => break`); a failed payload read
only logs a warning, leaves the cursor at the end of the buffer (that is
what `read_exact` does on a `Cursor`) and continues, so the next header
read fails and the loop ends with the data accumulated so far. -/
def block_loop (inflate : List Nat → Nat → Option (List Nat))
    (bytes : List Nat) : Nat → Nat → List Nat → Option (List Nat)
  | 0, _, acc => some acc
  | rem + 1, pos, acc =>
    if pos + 12 ≤ bytes.length then
      if pos + 12 + parse_dword ((bytes.drop pos).take 4) ≤ bytes.length then
        match inflate
            ((bytes.drop (pos + 12)).take (parse_dword ((bytes.drop pos).take 4)))
            (parse_dword ((bytes.drop (pos + 4)).take 4)) with
        | some out =>
          block_loop inflate bytes rem
            (pos + 12 + parse_dword ((bytes.drop pos).take 4)) (acc ++ out)
        | none => none
      else block_loop inflate bytes rem bytes.length acc
    else some acc

/-- The container layer of `Replay::from_bytes` (`src/lib.rs` lines
334–398): 48-byte header, version byte at offset `0x24` selecting a total
header length of 64 (version 0) or 68 (anything else), the remaining
header bytes skipped, the declared block count at header offset 44, then
the block loop.  Returns the version byte and the reassembled raw data. -/
def container_decode (inflate : List Nat → Nat → Option (List Nat))
    (bytes : List Nat) : Option (Nat × List Nat) :=
  if 48 ≤ bytes.length then
    if (if bytes.getD 36 0 = 0 then 64 else 68) ≤ bytes.length then
      obind (block_loop inflate bytes
        (parse_dword ((bytes.drop 44).take 4))
        (if bytes.getD 36 0 = 0 then 64 else 68) []) fun d =>
      some (bytes.getD 36 0, d)
    else none
  else none

/-- Decoding of the reassembled raw stream (`src/lib.rs` lines 401–1026):
header/roster section, record/action stream, then the final assembly.
`ReplayMeta.saving_player_id` is populated from `last_leaver_index`
(line 1004); the `candidate_search` value the source also computes is
discarded. -/
def decode_data (version : Nat) (data : List Nat) : Option Replay :=
  obind (parse_header data) fun hp =>
  obind (process_records data (data.length + 1) hp.2
    ⟨⟨0, [], [], hp.1.players⟩, 0⟩) fun rr =>
  some { version := version,
         metadata := { saving_player_id := rr.1.lastLeaver,
                       is_saving_player_host := hp.1.player_is_host,
                       game_name := hp.1.game_name,
                       map_name := hp.1.map_name,
                       game_creator_battle_tag := hp.1.game_creator_name },
         game_settings := hp.1.game_settings,
         slots := hp.1.slots,
         players := rr.1.pst.players,
         chat := rr.1.pst.chat,
         actions := rr.1.pst.actions }

/-- `Replay::from_bytes` (`src/lib.rs` lines 334–1027), parameterized by
the external inflate collaborator: container layer, then the decode of the
reassembled stream. -/
def Replay.from_bytes (inflate : List Nat → Nat → Option (List Nat))
    (bytes : List Nat) : Option Replay :=
  obind (container_decode inflate bytes) fun vd =>
  decode_data vd.1 vd.2

/-- Claim C1's reading of the item-id lookahead: peek the 16-bit word at
the current position; when it is `0x000D` the item id is the 2-byte string
**at the peek position** followed by 2 skipped bytes, otherwise it is the
4-byte string at the peek position — in both cases the cursor would end 4
bytes past the peek position.  (The source instead seeks 4 bytes back
after the peek; see `cursor_read_ability_itemid`.) -/
def claim_read_ability_itemid (data : List Nat) (pos : Nat) :
    Option (List Nat × Nat) :=
  obind (cursor_read_word data pos) fun w =>
  if w = 0x000D then
    obind (cursor_read_string data pos 2) fun s => some (s, pos + 4)
  else
    obind (cursor_read_string data pos 4) fun s => some (s, pos + 4)

/-- Little-endian 4-byte encoding, for building concrete test buffers. -/
def le4 (n : Nat) : List Nat :=
  [n % 256, n / 256 % 256, n / 65536 % 256, n / 16777216 % 256]

/-- Wrap a raw decoded stream into a one-block container file: 48-byte
header with version byte 1 at offset 36 and block count 1 at offset 44,
20-byte subheader, then one block whose 12-byte header declares the
payload length, carrying the stream itself as the payload (to be paired
with `id_inflate`). -/
def wrap_container (d : List Nat) : List Nat :=
  List.replicate 36 0 ++ [1] ++ List.replicate 7 0 ++ le4 1 ++
    List.replicate 20 0 ++ le4 d.length ++ le4 d.length ++ [0, 0, 0, 0] ++ d

/-- An inflate collaborator that returns the compressed bytes unchanged —
used with `wrap_container`, whose blocks carry raw payloads. -/
def id_inflate : List Nat → Nat → Option (List Nat) :=
  fun b _ => some b

/-- An inflate collaborator that fails on every block. -/
def fail_inflate : List Nat → Nat → Option (List Nat) :=
  fun _ _ => none

/-- A concrete decoded header/roster prefix, 74 bytes: host player 1
("A"), game name "G", an obfuscated settings blob decoding to
`[2, 0×12, 'M', 0, 'C', 0]`, two roster records for players 2 ("B") and
3 ("D"), the `0x19` start record, one slot record, seed, selection mode
and start-spot count.  `parse_header` consumes exactly these 74 bytes. -/
def c_prefix : List Nat :=
  [0x00, 0x01, 0, 0, 0, 0, 65, 0, 0, 71, 0, 0,
   1, 3, 1, 1, 1, 1, 1, 1, 1, 1, 1, 1, 1, 1, 1, 78, 1, 1, 68, 1, 0,
   2, 0, 0, 0, 1, 0, 0, 0, 0, 0, 0, 0,
   0x16, 2, 66, 0, 0,
   0x16, 3, 68, 0, 0,
   0x19, 10, 0, 1,
   1, 100, 2, 0, 0, 0, 1, 1, 100,
   0, 0, 0, 0, 0, 2]

/-- The roster `parse_header` produces for `c_prefix`. -/
def c_players : List (Nat × ReplayPlayer) :=
  [(1, ⟨[65], .UNKNOWN, 0, 0⟩), (2, ⟨[66], .UNKNOWN, 0, 0⟩),
   (3, ⟨[68], .UNKNOWN, 0, 0⟩)]

/-- Concrete stream for C1: one time slice with a single `0x10` ability
action whose lookahead word is `0x000D`; the two bytes before the
lookahead word are `65, 66`. -/
def c1_data : List Nat := c_prefix ++
  [0x1E, 20, 0, 10, 0, 2, 15, 0,
   0x10, 0, 0, 65, 66, 0x0D, 0x00, 1, 0, 0, 0, 2, 0, 0, 0, 0x00]

/-- Concrete container input for C2: a single well-formed block of 2
payload bytes (paired with `fail_inflate`). -/
def c2_bytes : List Nat := wrap_container [7, 7]

/-- Concrete stream for C3: one `0x16` change-selection action whose
selection-mode byte is the unrecognized value `3`. -/
def c3_data : List Nat := c_prefix ++
  [0x1E, 17, 0, 10, 0, 2, 12, 0,
   0x16, 3, 1, 0, 1, 0, 0, 0, 2, 0, 0, 0, 0x00]

/-- Concrete stream for C4: player 2 leaves with reason `0x0C`
(local-closed, the unique candidate of the leave-reason search), then
player 3 leaves with reason `0x01` — so the last leaver is 3. -/
def c4_data : List Nat := c_prefix ++
  [0x17, 0x0C, 0, 0, 0, 2, 0, 0, 0, 0, 0, 0, 0, 0,
   0x17, 0x01, 0, 0, 0, 3, 0, 0, 0, 0, 0, 0, 0, 0,
   0x00]

/-- Concrete stream for C6 (dedup case): two identical `0x60` chat
commands ("gg") from player 2 at cumulative timestamps 1000 and 1300. -/
def c6_near : List Nat := c_prefix ++
  [0x1E, 17, 0, 232, 3, 2, 12, 0, 0x60, 0, 0, 0, 0, 0, 0, 0, 0, 103, 103, 0,
   0x1E, 17, 0, 44, 1, 2, 12, 0, 0x60, 0, 0, 0, 0, 0, 0, 0, 0, 103, 103, 0,
   0x00]

/-- Concrete stream for C6 (no-dedup case): the same two commands at
cumulative timestamps 1000 and 1700. -/
def c6_far : List Nat := c_prefix ++
  [0x1E, 17, 0, 232, 3, 2, 12, 0, 0x60, 0, 0, 0, 0, 0, 0, 0, 0, 103, 103, 0,
   0x1E, 17, 0, 188, 2, 2, 12, 0, 0x60, 0, 0, 0, 0, 0, 0, 0, 0, 103, 103, 0,
   0x00]

/-- Concrete stream for C8: a block of declared length 6 holding a `0x01`
pause action, then the unknown opcode `0x08` followed by 4 junk bytes;
after the block a `0x17` leave record for player 3 and the terminator. -/
def c8_data : List Nat := c_prefix ++
  [0x1E, 11, 0, 100, 0, 3, 6, 0, 0x01, 0x08, 9, 9, 9, 9,
   0x17, 1, 0, 0, 0, 3, 0, 0, 0, 0, 0, 0, 0, 0, 0x00]

/-- Concrete container input for C9: two declared blocks; the first is
complete with payload `[1, 2, 3]`, the second declares a 10-byte payload
but only 2 bytes remain. -/
def c9_bytes : List Nat :=
  List.replicate 36 0 ++ [1] ++ List.replicate 7 0 ++ le4 2 ++
    List.replicate 20 0 ++ le4 3 ++ le4 3 ++ [0, 0, 0, 0] ++ [1, 2, 3] ++
    le4 10 ++ le4 10 ++ [0, 0, 0, 0] ++ [9, 9]

/-- Concrete stream for C10: a time-slice record whose declared
"bytes following" word is 1 (less than the 2 that are immediately
subtracted), followed by bytes that the wrapped bookkeeping then
misreads as a per-player block. -/
def c10_data : List Nat := c_prefix ++
  [0x1E, 1, 0, 50, 0, 9, 2, 0, 0x01, 0x01, 0x00]

/-- The same stream with a consistent declared length (7 = 2 increment
bytes + 3 block-header bytes + 2 action bytes), which parses cleanly. -/
def c10_fixed : List Nat := c_prefix ++
  [0x1E, 7, 0, 50, 0, 9, 2, 0, 0x01, 0x01, 0x00]

theorem obind_none {α β : Type} (f : α → Option β) : obind none f = none :=
  rfl

theorem obind_some {α β : Type} (a : α) (f : α → Option β) :
    obind (some a) f = f a :=
  rfl

theorem cursor_skip_back4 (pos : Nat) (h : 2 ≤ pos) :
    cursor_skip_bytes (pos + 2) (-4) = some (pos - 2) := by
  unfold cursor_skip_bytes
  rw [if_neg (by omega)]
  congr 1
  all_goals omega

theorem cursor_skip_fwd2 (p : Nat) :
    cursor_skip_bytes p 2 = some (p + 2) := by
  unfold cursor_skip_bytes
  rw [if_neg (by omega)]
  congr 1
  all_goals omega

/-- Helper for C5: the source loop and the claim's positional description
agree at every position/mask state, given that the input reaches a zero
byte (otherwise the source's `enc[i]` indexing panics). -/
theorem decode_gamesettings_agrees :
    ∀ (l : List Nat) (i mask : Nat), 0 ∈ l →
      decode_gamesettings_go l i mask =
        some (spec_decode_gamesettings_go l i mask) := by
  intro l
  induction l with
  | nil => intro i mask h; simp at h
  | cons b rest ih =>
    intro i mask h
    by_cases hb : b = 0
    · simp [decode_gamesettings_go, spec_decode_gamesettings_go, hb]
    · have hr : 0 ∈ rest := by
        rcases List.mem_cons.mp h with h1 | h1
        · exact absurd h1.symm hb
        · exact h1
      by_cases hi : i % 8 = 0
      · simp [decode_gamesettings_go, spec_decode_gamesettings_go, hb, hi,
          ih (i + 1) b hr]
      · simp [decode_gamesettings_go, spec_decode_gamesettings_go, hb, hi,
          ih (i + 1) mask hr]

/-- C5 (confirmed): for every encoded game-settings byte sequence that
contains a zero byte, `decode_gamesettings` produces exactly the output of
the claim's positional description — mask bytes at positions that are
multiples of 8 are consumed but not emitted, any other byte at position
`p` is emitted as `byte - 1` when bit `p % 8` of the current mask is unset
and unchanged otherwise, and processing stops, without emitting, at the
first zero input byte.  The second conjunct evaluates the decoder on the
concrete 21-byte blob used by the end-to-end tests. -/
theorem c5_decode_gamesettings_follows_claim :
    (∀ enc : List Nat, 0 ∈ enc →
      decode_gamesettings enc = some (spec_decode_gamesettings enc)) ∧
    decode_gamesettings
        [1, 3, 1, 1, 1, 1, 1, 1, 1, 1, 1, 1, 1, 1, 1, 78, 1, 1, 68, 1, 0] =
      some [2, 0, 0, 0, 0, 0, 0, 0, 0, 0, 0, 0, 0, 77, 0, 67, 0] := by
  constructor
  · intro enc h
    exact decode_gamesettings_agrees enc 0 0 h
  · decide

/-- C7 (confirmed): the 0-based wire color byte is incremented before the
tag lookup (with u8 wraparound at 255), so wire byte 0 maps to `RED`,
wire byte 24 maps to `OBSERVER`, and every wire byte in 25–255 maps to
`UNKNOWN` (126 because `127` is the `UNKNOWN` discriminant itself, 255
because the increment wraps to 0 which is not a discriminant, the rest
because 26–255 are not discriminants). -/
theorem c7_slot_color_mapping :
    SlotColor.of_wire 0 = SlotColor.RED ∧
    SlotColor.of_wire 24 = SlotColor.OBSERVER ∧
    ∀ b < 256, 25 ≤ b → SlotColor.of_wire b = SlotColor.UNKNOWN := by
  refine ⟨by decide, by decide, ?_⟩
  decide

/-- C3 counterexample: the selection-mode enumeration violates the claim.
`SelectionMode::from_u8` yields no value at the unrecognized wire byte 3
(the enumeration has no `UNKNOWN` variant at all), and an end-to-end
decode of a `0x16` change-selection action with mode byte 3 leaves the
`sel_mode` field absent instead of mapping it to an `UNKNOWN` tag. -/
theorem c3_unknown_fallback_cex :
    SelectionMode.from_u8 3 = none ∧
    (Replay.from_bytes id_inflate (wrap_container c3_data)).map
        (fun r => r.actions.map (fun a => a.data.map (fun d => d.sel_mode))) =
      some [some none] := by
  exact ⟨by decide, by decide⟩

/-- C3 (corrected): slot color, race, status, AI strength, leave reason
and action type do map every unrecognized wire value to their explicit
`UNKNOWN` variant, but selection mode does not: `SelectionMode` has only
`ADD` and `REMOVE`, and its decoder returns no value on every other
byte. -/
theorem c3_unknown_fallback :
    (∀ b : Nat, SlotStatus.from_u8 b = none →
      SlotStatus.decode b = SlotStatus.UNKNOWN) ∧
    (∀ b : Nat, SlotRace.from_u8 b = none →
      SlotRace.decode b = SlotRace.UNKNOWN) ∧
    (∀ b : Nat, ComputerAIStrength.from_u8 b = none →
      ComputerAIStrength.decode b = ComputerAIStrength.UNKNOWN) ∧
    (∀ b : Nat, SlotColor.from_u8 ((b + 1) % 256) = none →
      SlotColor.of_wire b = SlotColor.UNKNOWN) ∧
    (∀ n : Nat, LeaveReason.from_u32 n = none →
      LeaveReason.decode n = LeaveReason.UNKNOWN) ∧
    (∀ n : Nat, ActionType.from_u8 n = none →
      ActionType.decode n = ActionType.UNKNOWN) ∧
    (∀ b : Nat, b ≠ 1 → b ≠ 2 → SelectionMode.from_u8 b = none) ∧
    (∀ m : SelectionMode, m = SelectionMode.ADD ∨ m = SelectionMode.REMOVE) := by
  refine ⟨?_, ?_, ?_, ?_, ?_, ?_, ?_, ?_⟩
  · intro b h; simp [SlotStatus.decode, h]
  · intro b h; simp [SlotRace.decode, h]
  · intro b h; simp [ComputerAIStrength.decode, h]
  · intro b h; simp [SlotColor.of_wire, h]
  · intro n h; simp [LeaveReason.decode, h]
  · intro n h; simp [ActionType.decode, h]
  · intro b h1 h2; simp [SelectionMode.from_u8, h1, h2]
  · intro m; cases m
    · exact Or.inl rfl
    · exact Or.inr rfl

/-- C1 counterexample: on the buffer `[0xAA, 0xBB, 0x0D, 0x00, 0xCC,
0xDD]` with the reader entering at position 2 (so the peeked word is
`0x000D`), the source returns the 2-byte string `[0xAA, 0xBB]` taken from
**before** the peek position and leaves the cursor at 4, while the
claim's reading (`claim_read_ability_itemid`) returns the string at the
peek position, `[0x0D, 0x00]`, and leaves the cursor at 6 — so the claim,
as stated, is false. -/
theorem c1_itemid_lookahead_cex :
    cursor_read_ability_itemid [0xAA, 0xBB, 0x0D, 0x00, 0xCC, 0xDD] 2 =
      some ([0xAA, 0xBB], 4) ∧
    claim_read_ability_itemid [0xAA, 0xBB, 0x0D, 0x00, 0xCC, 0xDD] 2 =
      some ([0x0D, 0x00], 6) ∧
    cursor_read_ability_itemid [0xAA, 0xBB, 0x0D, 0x00, 0xCC, 0xDD] 2 ≠
      claim_read_ability_itemid [0xAA, 0xBB, 0x0D, 0x00, 0xCC, 0xDD] 2 := by
  exact ⟨by decide, by decide, by decide⟩

/-- C1 (corrected): after the peek of the 16-bit word at its entry
position, the reader seeks 4 bytes **backwards** — to the start of the 2
bytes its caller just skipped — so the item id is the 2-byte string (when
the peeked word is `0x000D`, followed by a 2-byte skip) or the 4-byte
string starting 2 bytes **before** the entry position, and in **both**
branches the cursor ends exactly 2 bytes past the entry position (the
whole skip-plus-item-id field therefore occupies the same 4 bytes after
the flag word regardless of the lookahead).  The second conjunct runs a
full decode of a `0x10` ability action whose lookahead word is `0x000D`:
the stored item id is the byte-reversed 2-byte string taken from the two
"skipped" bytes, and the stream stays aligned (the two trailing dwords
parse as 1 and 2). -/
theorem c1_itemid_lookahead :
    (∀ (data : List Nat) (pos w : Nat), 2 ≤ pos →
      cursor_read_word data pos = some w →
      cursor_read_ability_itemid data pos =
        if w = 0x000D then
          (cursor_read_string data (pos - 2) 2).map (fun s => (s, pos + 2))
        else
          (cursor_read_string data (pos - 2) 4).map (fun s => (s, pos + 2))) ∧
    (Replay.from_bytes id_inflate (wrap_container c1_data)).map
        (fun r => r.actions.map (fun a => a.data.bind (fun d => d.item_id))) =
      some [some [66, 65]] ∧
    (Replay.from_bytes id_inflate (wrap_container c1_data)).map
        (fun r => r.actions.map (fun a => a.data.bind (fun d => d.unknownA))) =
      some [some 1] ∧
    (Replay.from_bytes id_inflate (wrap_container c1_data)).map
        (fun r => r.actions.map (fun a => a.data.bind (fun d => d.unknownB))) =
      some [some 2] := by
  refine ⟨?_, by decide, by decide, by decide⟩
  intro data pos w h2 hw
  unfold cursor_read_ability_itemid
  rw [hw, cursor_skip_back4 pos h2]
  simp only [Option.some_bind, bind, Option.bind]
  by_cases hwd : w = 0x000D
  · rw [if_pos hwd]
    rw [cursor_skip_fwd2 (pos - 2 + 2)]
    have hp : pos - 2 + 2 + 2 = pos + 2 := by omega
    rw [hp]
    cases cursor_read_string data (pos - 2) 2 <;> simp [hwd]
  · rw [if_neg hwd]
    have hp : pos - 2 + 4 = pos + 2 := by omega
    rw [hp]
    cases cursor_read_string data (pos - 2) 4 <;> simp [hwd]

/-- C2 counterexample: a container whose single block is fully readable
but whose inflate fails makes the whole decode fail (`none`, the model of
the `.unwrap()` panic on `decompress_vec`) — nothing is handed to the
downstream parser, contradicting the claimed log-and-soft-stop
behavior. -/
theorem c2_inflate_failure_cex :
    container_decode fail_inflate c2_bytes = none ∧
    Replay.from_bytes fail_inflate c2_bytes = none := by
  exact ⟨by decide, by decide⟩

/-- C2 (corrected): when the inflate step fails on a block whose header
and compressed payload were both read successfully, the block loop — and
with it the whole decode — fails (the source calls `.unwrap()` on the
inflate result, a panic).  The log-and-continue soft path exists only for
a block whose compressed *payload* cannot be fully read (see C9). -/
theorem c2_inflate_failure_fatal :
    (∀ (inflate : List Nat → Nat → Option (List Nat)) (bytes : List Nat)
        (rem pos : Nat) (acc : List Nat),
      pos + 12 ≤ bytes.length →
      pos + 12 + parse_dword ((bytes.drop pos).take 4) ≤ bytes.length →
      inflate ((bytes.drop (pos + 12)).take
          (parse_dword ((bytes.drop pos).take 4)))
          (parse_dword ((bytes.drop (pos + 4)).take 4)) = none →
      block_loop inflate bytes (rem + 1) pos acc = none) ∧
    Replay.from_bytes fail_inflate c2_bytes = none := by
  constructor
  · intro inflate bytes rem pos acc h1 h2 h3
    simp only [block_loop]
    rw [if_pos h1, if_pos h2, h3]
  · decide

theorem block_loop_at_end (inflate : List Nat → Nat → Option (List Nat))
    (bytes : List Nat) (rem : Nat) (acc : List Nat) :
    block_loop inflate bytes rem bytes.length acc = some acc := by
  cases rem with
  | zero => rfl
  | succ n =>
    simp only [block_loop]
    rw [if_neg (by omega)]

/-- C9 (confirmed): when a block's compressed payload cannot be fully
read (its header promises more bytes than remain), the block loop stops —
the cursor is left at the end of the buffer, the next header read fails
and breaks the loop — and returns the data accumulated so far instead of
failing.  The concrete conjuncts run the two-block container whose second
payload is truncated: the container layer returns the first block's data,
and `Replay::from_bytes` hands exactly that data to the downstream
parser. -/
theorem c9_truncated_block_soft_stop :
    (∀ (inflate : List Nat → Nat → Option (List Nat)) (bytes : List Nat)
        (rem pos : Nat) (acc : List Nat),
      pos + 12 ≤ bytes.length →
      bytes.length < pos + 12 + parse_dword ((bytes.drop pos).take 4) →
      block_loop inflate bytes (rem + 1) pos acc = some acc) ∧
    container_decode id_inflate c9_bytes = some (1, [1, 2, 3]) ∧
    Replay.from_bytes id_inflate c9_bytes = decode_data 1 [1, 2, 3] := by
  refine ⟨?_, by decide, by decide⟩
  intro inflate bytes rem pos acc h1 h2
  simp only [block_loop]
  rw [if_pos h1, if_neg (by omega)]
  exact block_loop_at_end inflate bytes rem acc

/-- C6 (confirmed): the in-band `0x60` chat command appends a chat entry
if and only if no existing entry from the same sender with identical text
lies within 500 timestamp units of the current cumulative timestamp; in
particular two identical commands from player 2 at cumulative timestamps
1000 and 1300 yield exactly one entry, and at 1000 and 1700 they yield
two. -/
theorem c6_chat_command_dedup :
    (∀ (chat : List ChatMessage) (pid ts : Nat) (cmd : List Nat),
      ((∃ el ∈ chat, el.sender_player_id = pid ∧ el.message = cmd ∧
          Nat.dist el.timestamp ts < 500) → chat_push chat pid ts cmd = chat) ∧
      (¬(∃ el ∈ chat, el.sender_player_id = pid ∧ el.message = cmd ∧
          Nat.dist el.timestamp ts < 500) →
        chat_push chat pid ts cmd = chat ++ [⟨pid, none, none, cmd, ts⟩])) ∧
    (Replay.from_bytes id_inflate (wrap_container c6_near)).map
        (fun r => r.chat.map (fun c => (c.sender_player_id, c.timestamp,
          c.message))) = some [(2, 1000, [103, 103])] ∧
    (Replay.from_bytes id_inflate (wrap_container c6_far)).map
        (fun r => r.chat.map (fun c => (c.sender_player_id, c.timestamp,
          c.message))) =
      some [(2, 1000, [103, 103]), (2, 1700, [103, 103])] := by
  refine ⟨?_, by decide, by decide⟩
  intro chat pid ts cmd
  constructor
  · intro h; simp [chat_push, h]
  · intro h; simp [chat_push, h]

/-- C10 (confirmed): the time-slice remaining-length bookkeeping uses
unguarded wrapping 16-bit subtraction.  On the concrete stream
`c10_data`, whose `0x1E` record declares a "bytes following" word of 1,
the immediate `len_following -= 2` wraps to 65535, the `> 3`
loop-entry check passes on that wrapped value, the parser misreads the
following bytes as per-player blocks, and the decode dies (`none`) when
the misaligned reads run off the stream; the identical stream with the
consistent declared length 7 parses cleanly into its two pause
actions. -/
theorem c10_timeslice_u16_underflow :
    cursor_read_word c10_data 75 = some 1 ∧
    u16_sub 1 2 = 65535 ∧
    3 < u16_sub 1 2 ∧
    process_records c10_data (c10_data.length + 1) 74
      ⟨⟨0, [], [], c_players⟩, 0⟩ = none ∧
    Replay.from_bytes id_inflate (wrap_container c10_data) = none ∧
    (process_records c10_fixed (c10_fixed.length + 1) 74
        ⟨⟨0, [], [], c_players⟩, 0⟩).map
      (fun rr => rr.1.pst.actions.map (fun a => a.action_type)) =
      some [ActionType.PAUSE, ActionType.PAUSE] := by
  exact ⟨by decide, by decide, by decide, by decide, by decide, by decide⟩

/-- Any opcode outside the dispatch table reaches the unknown-opcode arm:
skip to the end of the declared block and stop, or fail when the skip
target is inconsistent or past the end of the buffer. -/
theorem dispatch_action_unknown (data : List Nat) (pid ts : Nat)
    (chat : List ChatMessage) (op pos1 bs bl : Nat)
    (h : op ∉ known_opcodes) :
    dispatch_action data pid ts chat op pos1 bs bl =
      if pos1 ≤ bs + bl ∧ bs + bl ≤ data.length
      then some (ActStep.stop (bs + bl)) else none := by
  unfold dispatch_action
  rw [if_neg h]

/-- C8 (confirmed): when the innermost action loop meets an opcode outside
the dispatch table (with the byte available, the block invariant
`cur_read_bytes < block_len` holding, at most the declared block consumed
so far and the declared block end inside the buffer), it skips exactly to
the end of the declared block, returns successfully with the state
unchanged — the unknown action is not emitted and nothing panics — and
hands control back to the block loop at the block boundary.  The concrete
conjunct decodes a stream whose only block holds a known pause action
followed by the unknown opcode `0x08` and four junk bytes: the decode
succeeds, emits exactly the pause action, and the following `0x17` leave
record is still parsed correctly (the saving-player id becomes 3), so the
stream stayed aligned. -/
theorem c8_unknown_opcode_skip :
    (∀ (data : List Nat) (fuel pos bs bl cr pid : Nat) (st : PSt) (op : Nat),
      cursor_read_byte data pos = some op →
      op ∉ known_opcodes →
      cr < bl →
      pos + 1 ≤ bs + bl →
      bs + bl ≤ data.length →
      process_actions data (fuel + 1) pos bs bl cr pid st =
        some (st, bs + bl)) ∧
    (Replay.from_bytes id_inflate (wrap_container c8_data)).map
        (fun r => (r.actions.map (fun a => a.action_type),
          r.metadata.saving_player_id)) = some ([ActionType.PAUSE], 3) := by
  refine ⟨?_, by decide⟩
  intro data fuel pos bs bl cr pid st op hop hunk hcr h1 h2
  simp only [process_actions]
  rw [if_pos hcr, hop, obind_some,
    dispatch_action_unknown data pid st.ts st.chat op (pos + 1) bs bl hunk,
    if_pos ⟨h1, h2⟩]
  rfl

/-- Helper for C4: on any successful run, the final `last_leaver_index`
equals the player id of the last `0x17` leave-game record the loop
processed (`collect_leaves` lists those ids in order), with the incoming
value as the default when no leave record occurs. -/
theorem process_records_lastLeaver (data : List Nat) :
    ∀ (fuel pos : Nat) (pst : PSt) (ll : Nat) (out : RecSt × Nat),
      process_records data fuel pos ⟨pst, ll⟩ = some out →
      out.1.lastLeaver = (collect_leaves data fuel pos pst).getLastD ll := by
  intro fuel
  induction fuel with
  | zero => intro pos pst ll out h; simp [process_records] at h
  | succ n ih =>
    intro pos pst ll out h
    cases hb : cursor_read_byte data pos with
    | none => simp only [process_records, hb, obind_none] at h; cases h
    | some tag =>
      simp only [process_records, collect_leaves, hb, obind_some] at h ⊢
      by_cases h17 : tag = 0x17
      · rw [if_pos h17] at h ⊢
        cases hlr : cursor_read_dword data (pos + 1) with
        | none => rw [hlr, obind_none] at h; cases h
        | some lr =>
          rw [hlr, obind_some] at h
          cases hpid : cursor_read_byte data (pos + 5) with
          | none => rw [hpid, obind_none] at h; cases h
          | some pid =>
            rw [hpid, obind_some] at h
            cases hres : cursor_read_dword data (pos + 6) with
            | none => rw [hres, obind_none] at h; cases h
            | some res =>
              rw [hres, obind_some] at h
              simp only [hlr, hpid, hres]
              rw [List.getLastD_cons]
              exact ih (pos + 14) _ pid out h
      · rw [if_neg h17] at h ⊢
        by_cases h1a : tag = 0x1A ∨ tag = 0x1B ∨ tag = 0x1C
        · rw [if_pos h1a] at h ⊢
          exact ih (pos + 5) pst ll out h
        · rw [if_neg h1a] at h ⊢
          by_cases h1e : tag = 0x1E ∨ tag = 0x1F
          · rw [if_pos h1e] at h ⊢
            cases hw : cursor_read_word data (pos + 1) with
            | none => rw [hw, obind_none] at h; cases h
            | some w =>
              rw [hw, obind_some] at h
              cases hinc : cursor_read_word data (pos + 3) with
              | none => rw [hinc, obind_none] at h; cases h
              | some inc =>
                rw [hinc, obind_some] at h
                simp only [hw, hinc]
                by_cases hlf : 3 < u16_sub w 2
                · rw [if_pos hlf] at h ⊢
                  cases hpb : process_blocks data (data.length + 1) (pos + 5)
                      (u16_sub w 2) { pst with ts := pst.ts + inc } with
                  | none => rw [hpb, obind_none] at h; cases h
                  | some br =>
                    rw [hpb, obind_some] at h
                    simp only [hpb]
                    exact ih br.2 br.1 ll out h
                · rw [if_neg hlf] at h ⊢
                  exact ih (pos + 5) _ ll out h
          · rw [if_neg h1e] at h ⊢
            by_cases h20 : tag = 0x20
            · rw [if_pos h20] at h ⊢
              cases hpid : cursor_read_byte data (pos + 1) with
              | none => rw [hpid, obind_none] at h; cases h
              | some pid =>
                rw [hpid, obind_some] at h
                cases hfl : cursor_read_byte data (pos + 4) with
                | none => rw [hfl, obind_none] at h; cases h
                | some flag =>
                  rw [hfl, obind_some] at h
                  cases hco : cursor_read_dword data (pos + 5) with
                  | none => rw [hco, obind_none] at h; cases h
                  | some code =>
                    rw [hco, obind_some] at h
                    cases hmsg : cursor_read_nullterminated_string data (pos + 9) with
                    | none => rw [hmsg, obind_none] at h; cases h
                    | some msg =>
                      rw [hmsg, obind_some] at h
                      simp only [hpid, hfl, hco, hmsg]
                      exact ih msg.2 _ ll out h
            · rw [if_neg h20] at h ⊢
              by_cases h22 : tag = 0x22
              · rw [if_pos h22] at h ⊢
                exact ih (pos + 6) pst ll out h
              · rw [if_neg h22] at h ⊢
                by_cases h23 : tag = 0x23
                · rw [if_pos h23] at h ⊢
                  exact ih (pos + 11) pst ll out h
                · rw [if_neg h23] at h ⊢
                  by_cases h2f : tag = 0x2F
                  · rw [if_pos h2f] at h ⊢
                    exact ih (pos + 9) pst ll out h
                  · rw [if_neg h2f] at h ⊢
                    rw [Option.some_inj] at h
                    subst h
                    rfl

/-- C4 (confirmed): `ReplayMeta.saving_player_id` of the returned `Replay`
equals the player id carried by the last `0x17` leave-game record of the
action stream (0 when none occurred) — the source assigns
`last_leaver_index` at line 1004 — and not the result of the
leave-reason-based candidate search (lines 990–997), which is computed
and discarded.  On the concrete stream `c4_data`, player 2 is the unique
local-closed candidate (so the candidate search yields 2) while the last
leaver is player 3: the decoded field is 3. -/
theorem c4_saving_player_id_last_leaver :
    (∀ (inflate : List Nat → Nat → Option (List Nat)) (bytes : List Nat)
        (v : Nat) (data : List Nat) (hp : HeaderInfo) (pos : Nat)
        (r : Replay),
      container_decode inflate bytes = some (v, data) →
      parse_header data = some (hp, pos) →
      Replay.from_bytes inflate bytes = some r →
      r.metadata.saving_player_id =
        (collect_leaves data (data.length + 1) pos
          ⟨0, [], [], hp.players⟩).getLastD 0) ∧
    (Replay.from_bytes id_inflate (wrap_container c4_data)).map
        (fun r => r.metadata.saving_player_id) = some 3 ∧
    (Replay.from_bytes id_inflate (wrap_container c4_data)).map
        (fun r => candidate_search r.players) = some (some 2) := by
  refine ⟨?_, by decide, by decide⟩
  intro inflate bytes v data hp pos r hc hh hf
  unfold Replay.from_bytes at hf
  rw [hc, obind_some] at hf
  unfold decode_data at hf
  rw [hh, obind_some] at hf
  cases hpr : process_records data (data.length + 1) pos
      ⟨⟨0, [], [], hp.players⟩, 0⟩ with
  | none => rw [hpr, obind_none] at hf; cases hf
  | some rr =>
    rw [hpr, obind_some] at hf
    rw [Option.some_inj] at hf
    subst hf
    exact process_records_lastLeaver data (data.length + 1) pos _ 0 rr hpr

end ReplayRs
